import Mathlib

/-!
Shallow embedding of the style-resolution and geometry core of the
auto-appscreenshots repository (files style_merger.py, config_manager.py,
image_processor.py, text_renderer.py, models.py), with theorems checking
the specified behaviour.

Modelling conventions:
* A Python dict from language code to value is an association list
  `List (String × α)` with first-match lookup `dlookup`; the semantics of
  building an empty dict and then calling `update` with the base map and
  then the override map is captured by `dunion` (override keys win).
* Pydantic's explicitly-set tracking, as consumed by
  `model_dump(exclude_unset=True)`, is modelled by a Boolean mask
  `TextStyleFieldsSet` carried alongside the scalar `TextStyle` value.
* Python float arithmetic in the geometry code is modelled over ℚ;
  `int(x)` applied to a float is `pytrunc` (truncation toward zero) and
  integer `//` is `Int.fdiv` (floor division), matching Python semantics.
* A Python exception (ZeroDivisionError, ValueError) is modelled as `none`.
-/

namespace AutoAppScreenshots

/-- First-match lookup in an association list, modelling Python dict indexing
(`d[k]` / `k in d`). -/
def dlookup {α : Type} : List (String × α) → String → Option α
  | [], _ => none
  | (k, v) :: rest, key => if k = key then some v else dlookup rest key

/-- Left-biased choice on options: Python's pattern of taking the first
available value. -/
def optOr {α : Type} (a b : Option α) : Option α :=
  match a with
  | some v => some v
  | none => b

/-- Key-wise union with override precedence, modelling the source's
`merged_dict.update(defaults_value)` followed by
`merged_dict.update(override_value)`: a key present in the override map wins,
every other key keeps its base entry. -/
def dunion {α : Type} (base ovr : List (String × α)) : List (String × α) :=
  base.filter (fun p => (dlookup ovr p.1).isNone) ++ ovr

/-- A set field of a `LocalizedTextStyle` is either a direct scalar (applies
to every language) or a per-language map, mirroring the pydantic union type
`T | dict[str, T]` in models.py. -/
inductive StyleValue (α : Type) where
  | direct : α → StyleValue α
  | perLanguage : List (String × α) → StyleValue α
  deriving DecidableEq, Repr

/-- Resolved text style (models.py `TextStyle`): all ten fields scalar, with
the built-in defaults. -/
structure TextStyle where
  font_family : String := "Arial"
  font_style : String := "normal"
  font_weight : String := "normal"
  font_size : Int := 96
  color : String := "#FFFFFF"
  offset : Int × Int := (0, 0)
  shadow : Bool := false
  shadow_color : String := "#000000"
  shadow_offset : Int × Int := (2, 2)
  shadow_blur : Int := 4
  deriving DecidableEq, Repr

/-- Which fields of a `TextStyle` were explicitly passed at construction:
pydantic's fields-set record, read back by `model_dump(exclude_unset=True)`. -/
structure TextStyleFieldsSet where
  font_family : Bool := false
  font_style : Bool := false
  font_weight : Bool := false
  font_size : Bool := false
  color : Bool := false
  offset : Bool := false
  shadow : Bool := false
  shadow_color : Bool := false
  shadow_offset : Bool := false
  shadow_blur : Bool := false
  deriving DecidableEq, Repr

/-- Unresolved localized text style (models.py `LocalizedTextStyle`): every
field optional, and when present either direct or per-language. -/
structure LocalizedTextStyle where
  font_family : Option (StyleValue String) := none
  font_style : Option (StyleValue String) := none
  font_weight : Option (StyleValue String) := none
  font_size : Option (StyleValue Int) := none
  color : Option (StyleValue String) := none
  offset : Option (StyleValue (Int × Int)) := none
  shadow : Option (StyleValue Bool) := none
  shadow_color : Option (StyleValue String) := none
  shadow_offset : Option (StyleValue (Int × Int)) := none
  shadow_blur : Option (StyleValue Int) := none
  deriving DecidableEq, Repr

/-- style_merger.py `StyleMerger.merge_text_styles`: copy the base, then
assign every field the override explicitly set (pydantic
`model_dump(exclude_unset=True)` iterates exactly the mask's true fields). -/
def merge_text_styles (defaults ovr : TextStyle) (ovrSet : TextStyleFieldsSet) : TextStyle where
  font_family := if ovrSet.font_family then ovr.font_family else defaults.font_family
  font_style := if ovrSet.font_style then ovr.font_style else defaults.font_style
  font_weight := if ovrSet.font_weight then ovr.font_weight else defaults.font_weight
  font_size := if ovrSet.font_size then ovr.font_size else defaults.font_size
  color := if ovrSet.color then ovr.color else defaults.color
  offset := if ovrSet.offset then ovr.offset else defaults.offset
  shadow := if ovrSet.shadow then ovr.shadow else defaults.shadow
  shadow_color := if ovrSet.shadow_color then ovr.shadow_color else defaults.shadow_color
  shadow_offset := if ovrSet.shadow_offset then ovr.shadow_offset else defaults.shadow_offset
  shadow_blur := if ovrSet.shadow_blur then ovr.shadow_blur else defaults.shadow_blur

/-- One field of style_merger.py `StyleMerger.merge_localized_text_styles`:
if the override field is `None` the base value is kept; if both sides hold
per-language dicts they are merged key-wise (override keys win); otherwise
the override value replaces the base value. -/
def mergeStyleValue {α : Type} (d o : Option (StyleValue α)) : Option (StyleValue α) :=
  match d, o with
  | d, none => d
  | some (.perLanguage dm), some (.perLanguage om) => some (.perLanguage (dunion dm om))
  | _, some ov => some ov

/-- Field-wise body of `merge_localized_text_styles` once both fragments are
present (the loop over `LocalizedTextStyle.model_fields`). -/
def mergeLocalizedFields (dv ov : LocalizedTextStyle) : LocalizedTextStyle where
  font_family := mergeStyleValue dv.font_family ov.font_family
  font_style := mergeStyleValue dv.font_style ov.font_style
  font_weight := mergeStyleValue dv.font_weight ov.font_weight
  font_size := mergeStyleValue dv.font_size ov.font_size
  color := mergeStyleValue dv.color ov.color
  offset := mergeStyleValue dv.offset ov.offset
  shadow := mergeStyleValue dv.shadow ov.shadow
  shadow_color := mergeStyleValue dv.shadow_color ov.shadow_color
  shadow_offset := mergeStyleValue dv.shadow_offset ov.shadow_offset
  shadow_blur := mergeStyleValue dv.shadow_blur ov.shadow_blur

/-- style_merger.py `StyleMerger.merge_localized_text_styles`: a missing
override returns the base, a missing base returns the override (pydantic
model instances are always truthy, so the source's `if not override_style`
is a `None` test), otherwise merge field-wise. -/
def merge_localized_text_styles (d o : Option LocalizedTextStyle) : Option LocalizedTextStyle :=
  match d, o with
  | d, none => d
  | none, some ov => some ov
  | some dv, some ov => some (mergeLocalizedFields dv ov)

/-- Python truthiness of an optional string parameter as used by the source's
`if language and language in value`: `None` and the empty string are falsy. -/
def strTruthy : Option String → Bool
  | none => false
  | some s => s != ""

/-- Per-field body of style_merger.py `StyleMerger.get_style_for_language`:
a direct value applies to every language; a per-language dict is consulted
first at `language`, then at `default_language`, each access guarded by
Python truthiness of the parameter; an unset field contributes nothing. -/
def resolveField {α : Type} (v : Option (StyleValue α)) (language default_language : Option String) : Option α :=
  match v with
  | none => none
  | some (.direct a) => some a
  | some (.perLanguage m) =>
    match (if strTruthy language then dlookup m (language.getD "") else none) with
    | some a => some a
    | none =>
      match (if strTruthy default_language then dlookup m (default_language.getD "") else none) with
      | some a => some a
      | none => none

/-- style_merger.py `StyleMerger.get_style_for_language`: build the style
dict field by field, then construct a `TextStyle` whose missing fields take
the built-in defaults; the second component records which fields were present
in the dict (pydantic's fields-set of the constructed model). -/
def get_style_for_language (ls : LocalizedTextStyle) (language default_language : Option String) : TextStyle × TextStyleFieldsSet :=
  let rff := resolveField ls.font_family language default_language
  let rfs := resolveField ls.font_style language default_language
  let rfw := resolveField ls.font_weight language default_language
  let rsz := resolveField ls.font_size language default_language
  let rcl := resolveField ls.color language default_language
  let rof := resolveField ls.offset language default_language
  let rsh := resolveField ls.shadow language default_language
  let rsc := resolveField ls.shadow_color language default_language
  let rso := resolveField ls.shadow_offset language default_language
  let rsb := resolveField ls.shadow_blur language default_language
  ({ font_family := rff.getD "Arial",
     font_style := rfs.getD "normal",
     font_weight := rfw.getD "normal",
     font_size := rsz.getD 96,
     color := rcl.getD "#FFFFFF",
     offset := rof.getD (0, 0),
     shadow := rsh.getD false,
     shadow_color := rsc.getD "#000000",
     shadow_offset := rso.getD (2, 2),
     shadow_blur := rsb.getD 4 },
   { font_family := rff.isSome,
     font_style := rfs.isSome,
     font_weight := rfw.isSome,
     font_size := rsz.isSome,
     color := rcl.isSome,
     offset := rof.isSome,
     shadow := rsh.isSome,
     shadow_color := rsc.isSome,
     shadow_offset := rso.isSome,
     shadow_blur := rsb.isSome })

/-- config_manager.py `ConfigManager._get_text_style`, specialised past the
reflective main/sub field lookup: resolve the theme fragment (a default
`TextStyle()` when the theme carries none), and when the screenshot fragment
is present resolve it and merge it over the theme result using its
fields-set. -/
def _get_text_style (theme_ls screenshot_ls : Option LocalizedTextStyle) (language : String) (default_language : Option String) : TextStyle :=
  let theme_text_style : TextStyle :=
    match theme_ls with
    | some tls => (get_style_for_language tls (some language) default_language).1
    | none => {}
  match screenshot_ls with
  | some sls =>
    let r := get_style_for_language sls (some language) default_language
    merge_text_styles theme_text_style r.1 r.2
  | none => theme_text_style

/-- Modelled from the spec wording of the per-field fallback chain (step 2 of
§4.1), not from the code: a per-language map is resolved to the
exact-language entry if present, else to the default-language entry if
present, with no truthiness guard. Used to compare the source behaviour
against the specified chain. -/
def specLangLookup {α : Type} (v : Option (StyleValue α)) (lang : String) (defLang : Option String) : Option α :=
  match v with
  | none => none
  | some (.direct a) => some a
  | some (.perLanguage m) =>
    match dlookup m lang with
    | some a => some a
    | none =>
      match defLang with
      | none => none
      | some dl => dlookup m dl

/-- Python `int | list[int]`, the type of the `corner_radius` and `padding`
fields of models.py `ImageStyle`. -/
inductive IntOrList where
  | scalar : Int → IntOrList
  | ofList : List Int → IntOrList
  deriving DecidableEq, Repr

/-- models.py `ImageStyle` (corner radius and padding as parsed). -/
structure ImageStyle where
  corner_radius : IntOrList := .scalar 0
  padding : IntOrList := .scalar 0
  deriving DecidableEq, Repr

/-- models.py `ImageStyle.get_padding_values`, returning
(top, right, bottom, left); lists of length one or of length five and more
fall into the source's final branch taking the first element. -/
def get_padding_values (s : ImageStyle) : Int × Int × Int × Int :=
  match s.padding with
  | .scalar v => (v, v, v, v)
  | .ofList [a, b] => (a, b, a, b)
  | .ofList [a, b, c] => (a, b, c, b)
  | .ofList [a, b, c, d] => (a, b, c, d)
  | .ofList [] => (0, 0, 0, 0)
  | .ofList (v :: _) => (v, v, v, v)

/-- models.py `ImageStyle.get_corner_radius_values`, returning
(top-left, top-right, bottom-right, bottom-left). -/
def get_corner_radius_values (s : ImageStyle) : Int × Int × Int × Int :=
  match s.corner_radius with
  | .scalar v => (v, v, v, v)
  | .ofList [a, b] => (a, b, a, b)
  | .ofList [a, b, c] => (a, b, c, b)
  | .ofList [a, b, c, d] => (a, b, c, d)
  | .ofList [] => (0, 0, 0, 0)
  | .ofList (v :: _) => (v, v, v, v)

/-- models.py `Theme`: the sparse per-theme override bundle. -/
structure Theme where
  text_area_height : Option Int := none
  background_color : Option String := none
  image_style : Option ImageStyle := none
  main_text_style : Option LocalizedTextStyle := none
  sub_text_style : Option LocalizedTextStyle := none
  deriving DecidableEq, Repr

/-- Python `a or b` for an optional integer `a`: both `None` and `0` are
falsy and select `b`. -/
def pyOrInt (a : Option Int) (b : Int) : Int :=
  match a with
  | none => b
  | some v => if v = 0 then b else v

/-- config_manager.py `ConfigManager.get_text_area_height`, applied to the
theme returned by `get_theme_style`: `theme_style.text_area_height or 400`. -/
def get_text_area_height (theme_style : Theme) : Int :=
  pyOrInt theme_style.text_area_height 400

/-- Value of one hexadecimal digit character, if it is one. -/
def hexDigitVal (c : Char) : Option Nat :=
  if '0' ≤ c ∧ c ≤ '9' then some (c.toNat - 48)
  else if 'a' ≤ c ∧ c ≤ 'f' then some (c.toNat - 87)
  else if 'A' ≤ c ∧ c ≤ 'F' then some (c.toNat - 55)
  else none

/-- Python `int(s, 16)` on a two-character slice made of hex digits; `none`
models the ValueError raised on a non-hex character. (Exotic two-character
forms Python would also accept — a sign or a space paired with one digit —
play no role in any input considered here.) -/
def pyIntHex2Chars (c1 c2 : Char) : Option Nat :=
  match hexDigitVal c1, hexDigitVal c2 with
  | some h, some l => some (16 * h + l)
  | _, _ => none

/-- The color string's characters after removal of an optional leading hash
mark (the source's `color.startswith("#")` / `color[1:]`). -/
def stripHash : List Char → List Char
  | '#' :: rest => rest
  | cs => cs

/-- image_processor.py `ImageProcessor.parse_color`: strip a leading hash
mark, then branch on length — six hex digits give (R,G,B,255), eight give
(R,G,B,A), any other length gives opaque black; `none` models the ValueError
raised by `int(slice, 16)` on a six- or eight-character string containing a
non-hex character. -/
def parse_color (color : String) : Option (Nat × Nat × Nat × Nat) :=
  match stripHash color.toList with
  | [c1, c2, c3, c4, c5, c6] =>
    match pyIntHex2Chars c1 c2, pyIntHex2Chars c3 c4, pyIntHex2Chars c5 c6 with
    | some r, some g, some b => some (r, g, b, 255)
    | _, _, _ => none
  | [c1, c2, c3, c4, c5, c6, c7, c8] =>
    match pyIntHex2Chars c1 c2, pyIntHex2Chars c3 c4, pyIntHex2Chars c5 c6, pyIntHex2Chars c7 c8 with
    | some r, some g, some b, some a => some (r, g, b, a)
    | _, _, _, _ => none
  | _ => some (0, 0, 0, 255)

/-- Truncation toward zero, modelling Python `int()` applied to a float (the
float arithmetic itself is modelled exactly over ℚ). -/
def pytrunc (q : ℚ) : Int :=
  if q < 0 then ⌈q⌉ else ⌊q⌋

/-- image_processor.py `ImageProcessor.calculate_scale_factor`: the minimum
of the two axis ratios, uncapped; `none` models the ZeroDivisionError raised
when an original dimension is zero. -/
def calculate_scale_factor (original_width original_height target_width target_height : Int) : Option ℚ :=
  if original_width = 0 then none
  else if original_height = 0 then none
  else some (min ((target_width : ℚ) / (original_width : ℚ)) ((target_height : ℚ) / (original_height : ℚ)))

/-- image_processor.py `ImageProcessor.calculate_screenshot_dimensions`:
available area from canvas, text band and padding; uniform scale from
`calculate_scale_factor`; truncated scaled sizes; centred position offsets. -/
def calculate_screenshot_dimensions (canvas_width canvas_height text_area_height padding_top padding_right padding_bottom padding_left original_width original_height : Int) : Option (Int × Int × Int × Int) :=
  let available_width := canvas_width - padding_left - padding_right
  let available_height := canvas_height - text_area_height - padding_top - padding_bottom
  match calculate_scale_factor original_width original_height available_width available_height with
  | none => none
  | some scale =>
    let scaled_width := pytrunc ((original_width : ℚ) * scale)
    let scaled_height := pytrunc ((original_height : ℚ) * scale)
    some (scaled_width, scaled_height,
      padding_left + Int.fdiv (available_width - scaled_width) 2,
      text_area_height + padding_top + Int.fdiv (available_height - scaled_height) 2)

/-- text_renderer.py `TextRenderer._calculate_vertical_position`; the float
products with 0.65 and 0.25 are modelled by the exact rationals 65/100 and
25/100, and Python `//` is floor division `Int.fdiv`. -/
def _calculate_vertical_position (text_area_height text_height bbox_top : Int) (is_main has_sub_text is_inverted : Bool) : Int :=
  if is_inverted then
    if is_main then
      if has_sub_text then pytrunc ((text_area_height : ℚ) * (65 / 100)) - Int.fdiv text_height 2
      else Int.fdiv (text_area_height - text_height) 2 - bbox_top
    else pytrunc ((text_area_height : ℚ) * (25 / 100)) - Int.fdiv text_height 2
  else
    if is_main then
      if has_sub_text then pytrunc ((text_area_height : ℚ) * (25 / 100)) - Int.fdiv text_height 2
      else Int.fdiv (text_area_height - text_height) 2 - bbox_top
    else pytrunc ((text_area_height : ℚ) * (65 / 100)) - Int.fdiv text_height 2

/-- Looking a key up in the union built by `dunion` finds the override entry
when the override map has the key and the base entry otherwise — exactly the
behaviour of two successive Python dict updates. -/
theorem dlookup_dunion {α : Type} (base ovr : List (String × α)) (k : String) :
    dlookup (dunion base ovr) k = optOr (dlookup ovr k) (dlookup base k) := by
  induction base with
  | nil =>
    simp only [dunion, List.filter_nil, List.nil_append]
    cases dlookup ovr k <;> simp [optOr, dlookup]
  | cons hd tl ih =>
    obtain ⟨k1, v1⟩ := hd
    rcases hov : dlookup ovr k1 with _ | v
    · have hstep : dunion ((k1, v1) :: tl) ovr = (k1, v1) :: dunion tl ovr := by
        simp [dunion, List.filter_cons, hov]
      rw [hstep]
      by_cases hk : k1 = k
      · subst hk
        simp [dlookup, hov, optOr]
      · simp only [dlookup, if_neg hk]
        rw [ih]
    · have hstep : dunion ((k1, v1) :: tl) ovr = dunion tl ovr := by
        simp [dunion, List.filter_cons, hov]
      rw [hstep, ih]
      by_cases hk : k1 = k
      · subst hk
        simp [dlookup, hov, optOr]
      · simp only [dlookup, if_neg hk]

/-- Claim C8: the shorthand expansion of `padding` and `corner_radius`
follows the table — a scalar fills all four slots, a two-element list
alternates, a three-element list mirrors its middle value, a four-element
list is taken as given, the empty list gives zeros, and a list of five or
more elements falls back to its first value; padding order is
(top, right, bottom, left) and corner order is
(top-left, top-right, bottom-right, bottom-left). -/
theorem C8_shorthand_expansion :
    (∀ cr v, get_padding_values ⟨cr, .scalar v⟩ = (v, v, v, v)) ∧
    (∀ cr a b, get_padding_values ⟨cr, .ofList [a, b]⟩ = (a, b, a, b)) ∧
    (∀ cr a b c, get_padding_values ⟨cr, .ofList [a, b, c]⟩ = (a, b, c, b)) ∧
    (∀ cr a b c d, get_padding_values ⟨cr, .ofList [a, b, c, d]⟩ = (a, b, c, d)) ∧
    (∀ cr, get_padding_values ⟨cr, .ofList []⟩ = (0, 0, 0, 0)) ∧
    (∀ cr v0 v1 v2 v3 v4 rest,
      get_padding_values ⟨cr, .ofList (v0 :: v1 :: v2 :: v3 :: v4 :: rest)⟩ = (v0, v0, v0, v0)) ∧
    (∀ pd v, get_corner_radius_values ⟨.scalar v, pd⟩ = (v, v, v, v)) ∧
    (∀ pd a b, get_corner_radius_values ⟨.ofList [a, b], pd⟩ = (a, b, a, b)) ∧
    (∀ pd a b c, get_corner_radius_values ⟨.ofList [a, b, c], pd⟩ = (a, b, c, b)) ∧
    (∀ pd a b c d, get_corner_radius_values ⟨.ofList [a, b, c, d], pd⟩ = (a, b, c, d)) ∧
    (∀ pd, get_corner_radius_values ⟨.ofList [], pd⟩ = (0, 0, 0, 0)) ∧
    (∀ pd v0 v1 v2 v3 v4 rest,
      get_corner_radius_values ⟨.ofList (v0 :: v1 :: v2 :: v3 :: v4 :: rest), pd⟩ = (v0, v0, v0, v0)) := by
  refine ⟨?_, ?_, ?_, ?_, ?_, ?_, ?_, ?_, ?_, ?_, ?_, ?_⟩ <;> intros <;> rfl

/-- Claim C9: the text-area height falls back to the default 400 both when
the theme leaves it unset and when it is explicitly configured as 0 —
presence is tested by Python truthiness — while any non-zero configured
height is returned unchanged. -/
theorem C9_text_area_height_truthiness :
    get_text_area_height { text_area_height := some 0 } = 400 ∧
    get_text_area_height {} = 400 ∧
    ∀ h : Int, h ≠ 0 → ∀ t : Theme, t.text_area_height = some h → get_text_area_height t = h := by
  refine ⟨rfl, rfl, ?_⟩
  intro h hh t ht
  simp [get_text_area_height, pyOrInt, ht, hh]

/-- Claim C9 witness: a configured height of 250 is returned unchanged. -/
theorem C9_text_area_height_truthiness_witness :
    (250 : Int) ≠ 0 ∧ get_text_area_height { text_area_height := some 250 } = 250 :=
  ⟨by decide, C9_text_area_height_truthiness.2.2 250 (by decide) _ rfl⟩

/-- Claim C10: in `merge_localized_text_styles` the key-wise union applies
only when both sides of a field hold per-language maps; an override direct
scalar wholly replaces a base per-language map, and an override per-language
map wholly replaces a base direct scalar — stated for each of the ten
fields. -/
theorem C10_mixed_kind_replacement (d o : LocalizedTextStyle) :
    ((∀ dm a, d.font_family = some (.perLanguage dm) → o.font_family = some (.direct a) →
      ∃ m, merge_localized_text_styles (some d) (some o) = some m ∧ m.font_family = some (.direct a)) ∧
     (∀ a om, d.font_family = some (.direct a) → o.font_family = some (.perLanguage om) →
      ∃ m, merge_localized_text_styles (some d) (some o) = some m ∧ m.font_family = some (.perLanguage om))) ∧
    ((∀ dm a, d.font_style = some (.perLanguage dm) → o.font_style = some (.direct a) →
      ∃ m, merge_localized_text_styles (some d) (some o) = some m ∧ m.font_style = some (.direct a)) ∧
     (∀ a om, d.font_style = some (.direct a) → o.font_style = some (.perLanguage om) →
      ∃ m, merge_localized_text_styles (some d) (some o) = some m ∧ m.font_style = some (.perLanguage om))) ∧
    ((∀ dm a, d.font_weight = some (.perLanguage dm) → o.font_weight = some (.direct a) →
      ∃ m, merge_localized_text_styles (some d) (some o) = some m ∧ m.font_weight = some (.direct a)) ∧
     (∀ a om, d.font_weight = some (.direct a) → o.font_weight = some (.perLanguage om) →
      ∃ m, merge_localized_text_styles (some d) (some o) = some m ∧ m.font_weight = some (.perLanguage om))) ∧
    ((∀ dm a, d.font_size = some (.perLanguage dm) → o.font_size = some (.direct a) →
      ∃ m, merge_localized_text_styles (some d) (some o) = some m ∧ m.font_size = some (.direct a)) ∧
     (∀ a om, d.font_size = some (.direct a) → o.font_size = some (.perLanguage om) →
      ∃ m, merge_localized_text_styles (some d) (some o) = some m ∧ m.font_size = some (.perLanguage om))) ∧
    ((∀ dm a, d.color = some (.perLanguage dm) → o.color = some (.direct a) →
      ∃ m, merge_localized_text_styles (some d) (some o) = some m ∧ m.color = some (.direct a)) ∧
     (∀ a om, d.color = some (.direct a) → o.color = some (.perLanguage om) →
      ∃ m, merge_localized_text_styles (some d) (some o) = some m ∧ m.color = some (.perLanguage om))) ∧
    ((∀ dm a, d.offset = some (.perLanguage dm) → o.offset = some (.direct a) →
      ∃ m, merge_localized_text_styles (some d) (some o) = some m ∧ m.offset = some (.direct a)) ∧
     (∀ a om, d.offset = some (.direct a) → o.offset = some (.perLanguage om) →
      ∃ m, merge_localized_text_styles (some d) (some o) = some m ∧ m.offset = some (.perLanguage om))) ∧
    ((∀ dm a, d.shadow = some (.perLanguage dm) → o.shadow = some (.direct a) →
      ∃ m, merge_localized_text_styles (some d) (some o) = some m ∧ m.shadow = some (.direct a)) ∧
     (∀ a om, d.shadow = some (.direct a) → o.shadow = some (.perLanguage om) →
      ∃ m, merge_localized_text_styles (some d) (some o) = some m ∧ m.shadow = some (.perLanguage om))) ∧
    ((∀ dm a, d.shadow_color = some (.perLanguage dm) → o.shadow_color = some (.direct a) →
      ∃ m, merge_localized_text_styles (some d) (some o) = some m ∧ m.shadow_color = some (.direct a)) ∧
     (∀ a om, d.shadow_color = some (.direct a) → o.shadow_color = some (.perLanguage om) →
      ∃ m, merge_localized_text_styles (some d) (some o) = some m ∧ m.shadow_color = some (.perLanguage om))) ∧
    ((∀ dm a, d.shadow_offset = some (.perLanguage dm) → o.shadow_offset = some (.direct a) →
      ∃ m, merge_localized_text_styles (some d) (some o) = some m ∧ m.shadow_offset = some (.direct a)) ∧
     (∀ a om, d.shadow_offset = some (.direct a) → o.shadow_offset = some (.perLanguage om) →
      ∃ m, merge_localized_text_styles (some d) (some o) = some m ∧ m.shadow_offset = some (.perLanguage om))) ∧
    ((∀ dm a, d.shadow_blur = some (.perLanguage dm) → o.shadow_blur = some (.direct a) →
      ∃ m, merge_localized_text_styles (some d) (some o) = some m ∧ m.shadow_blur = some (.direct a)) ∧
     (∀ a om, d.shadow_blur = some (.direct a) → o.shadow_blur = some (.perLanguage om) →
      ∃ m, merge_localized_text_styles (some d) (some o) = some m ∧ m.shadow_blur = some (.perLanguage om))) := by
  refine ⟨⟨?_, ?_⟩, ⟨?_, ?_⟩, ⟨?_, ?_⟩, ⟨?_, ?_⟩, ⟨?_, ?_⟩, ⟨?_, ?_⟩, ⟨?_, ?_⟩, ⟨?_, ?_⟩, ⟨?_, ?_⟩, ⟨?_, ?_⟩⟩
  all_goals
    intro u v hd ho
    exact ⟨_, rfl, by simp [mergeLocalizedFields, mergeStyleValue, hd, ho]⟩

/-- Claim C10 witness: an override direct font family replaces a base
per-language font-family map outright. -/
theorem C10_mixed_kind_replacement_witness :
    ∃ m, merge_localized_text_styles
        (some { font_family := some (.perLanguage [("ja", "Hiragino Sans")]) })
        (some { font_family := some (.direct "Arial") }) = some m ∧
      m.font_family = some (.direct "Arial") :=
  (C10_mixed_kind_replacement _ _).1.1 _ _ rfl rfl

/-- Claim C2: whenever both sides of a field carry a per-language map,
`merge_localized_text_styles` produces their key-wise union — an override
entry beats a same-key base entry and every non-overlapping key from either
side survives — stated for each of the ten fields via the lookup semantics
of the union. -/
theorem C2_per_language_union (d o : LocalizedTextStyle) :
    (∀ dm om, d.font_family = some (.perLanguage dm) → o.font_family = some (.perLanguage om) →
      ∃ m, merge_localized_text_styles (some d) (some o) = some m ∧
        m.font_family = some (.perLanguage (dunion dm om)) ∧
        ∀ k, dlookup (dunion dm om) k = optOr (dlookup om k) (dlookup dm k)) ∧
    (∀ dm om, d.font_style = some (.perLanguage dm) → o.font_style = some (.perLanguage om) →
      ∃ m, merge_localized_text_styles (some d) (some o) = some m ∧
        m.font_style = some (.perLanguage (dunion dm om)) ∧
        ∀ k, dlookup (dunion dm om) k = optOr (dlookup om k) (dlookup dm k)) ∧
    (∀ dm om, d.font_weight = some (.perLanguage dm) → o.font_weight = some (.perLanguage om) →
      ∃ m, merge_localized_text_styles (some d) (some o) = some m ∧
        m.font_weight = some (.perLanguage (dunion dm om)) ∧
        ∀ k, dlookup (dunion dm om) k = optOr (dlookup om k) (dlookup dm k)) ∧
    (∀ dm om, d.font_size = some (.perLanguage dm) → o.font_size = some (.perLanguage om) →
      ∃ m, merge_localized_text_styles (some d) (some o) = some m ∧
        m.font_size = some (.perLanguage (dunion dm om)) ∧
        ∀ k, dlookup (dunion dm om) k = optOr (dlookup om k) (dlookup dm k)) ∧
    (∀ dm om, d.color = some (.perLanguage dm) → o.color = some (.perLanguage om) →
      ∃ m, merge_localized_text_styles (some d) (some o) = some m ∧
        m.color = some (.perLanguage (dunion dm om)) ∧
        ∀ k, dlookup (dunion dm om) k = optOr (dlookup om k) (dlookup dm k)) ∧
    (∀ dm om, d.offset = some (.perLanguage dm) → o.offset = some (.perLanguage om) →
      ∃ m, merge_localized_text_styles (some d) (some o) = some m ∧
        m.offset = some (.perLanguage (dunion dm om)) ∧
        ∀ k, dlookup (dunion dm om) k = optOr (dlookup om k) (dlookup dm k)) ∧
    (∀ dm om, d.shadow = some (.perLanguage dm) → o.shadow = some (.perLanguage om) →
      ∃ m, merge_localized_text_styles (some d) (some o) = some m ∧
        m.shadow = some (.perLanguage (dunion dm om)) ∧
        ∀ k, dlookup (dunion dm om) k = optOr (dlookup om k) (dlookup dm k)) ∧
    (∀ dm om, d.shadow_color = some (.perLanguage dm) → o.shadow_color = some (.perLanguage om) →
      ∃ m, merge_localized_text_styles (some d) (some o) = some m ∧
        m.shadow_color = some (.perLanguage (dunion dm om)) ∧
        ∀ k, dlookup (dunion dm om) k = optOr (dlookup om k) (dlookup dm k)) ∧
    (∀ dm om, d.shadow_offset = some (.perLanguage dm) → o.shadow_offset = some (.perLanguage om) →
      ∃ m, merge_localized_text_styles (some d) (some o) = some m ∧
        m.shadow_offset = some (.perLanguage (dunion dm om)) ∧
        ∀ k, dlookup (dunion dm om) k = optOr (dlookup om k) (dlookup dm k)) ∧
    (∀ dm om, d.shadow_blur = some (.perLanguage dm) → o.shadow_blur = some (.perLanguage om) →
      ∃ m, merge_localized_text_styles (some d) (some o) = some m ∧
        m.shadow_blur = some (.perLanguage (dunion dm om)) ∧
        ∀ k, dlookup (dunion dm om) k = optOr (dlookup om k) (dlookup dm k)) := by
  refine ⟨?_, ?_, ?_, ?_, ?_, ?_, ?_, ?_, ?_, ?_⟩
  all_goals
    intro dm om hd ho
    exact ⟨_, rfl, by simp [mergeLocalizedFields, mergeStyleValue, hd, ho],
      fun k => dlookup_dunion dm om k⟩

/-- Claim C2 witness: merging a theme font-family map with an override map
for a different language yields the union holding both entries. -/
theorem C2_per_language_union_witness :
    (∃ m, merge_localized_text_styles
        (some { font_family := some (.perLanguage [("en", "Helvetica")]) })
        (some { font_family := some (.perLanguage [("ja", "Hiragino Sans")]) }) = some m ∧
      m.font_family = some (.perLanguage (dunion [("en", "Helvetica")] [("ja", "Hiragino Sans")])) ∧
      ∀ k, dlookup (dunion [("en", "Helvetica")] [("ja", "Hiragino Sans")]) k
        = optOr (dlookup [("ja", "Hiragino Sans")] k) (dlookup [("en", "Helvetica")] k)) ∧
    dlookup (dunion [("en", "Helvetica")] [("ja", "Hiragino Sans")]) "en" = some "Helvetica" ∧
    dlookup (dunion [("en", "Helvetica")] [("ja", "Hiragino Sans")]) "ja" = some "Hiragino Sans" :=
  ⟨(C2_per_language_union _ _).1 _ _ rfl rfl, by decide, by decide⟩

/-- Claim C1: `merge_text_styles` is field-independent — for every field, an
explicitly set override field takes the override value (whatever it is,
falsy values included, since the value is universally quantified) and an
unset override field keeps the base value; in particular an override with
exactly one set field changes only that field. -/
theorem C1_field_independence (B O : TextStyle) (s : TextStyleFieldsSet) :
    ((s.font_family = true → (merge_text_styles B O s).font_family = O.font_family) ∧
     (s.font_family = false → (merge_text_styles B O s).font_family = B.font_family)) ∧
    ((s.font_style = true → (merge_text_styles B O s).font_style = O.font_style) ∧
     (s.font_style = false → (merge_text_styles B O s).font_style = B.font_style)) ∧
    ((s.font_weight = true → (merge_text_styles B O s).font_weight = O.font_weight) ∧
     (s.font_weight = false → (merge_text_styles B O s).font_weight = B.font_weight)) ∧
    ((s.font_size = true → (merge_text_styles B O s).font_size = O.font_size) ∧
     (s.font_size = false → (merge_text_styles B O s).font_size = B.font_size)) ∧
    ((s.color = true → (merge_text_styles B O s).color = O.color) ∧
     (s.color = false → (merge_text_styles B O s).color = B.color)) ∧
    ((s.offset = true → (merge_text_styles B O s).offset = O.offset) ∧
     (s.offset = false → (merge_text_styles B O s).offset = B.offset)) ∧
    ((s.shadow = true → (merge_text_styles B O s).shadow = O.shadow) ∧
     (s.shadow = false → (merge_text_styles B O s).shadow = B.shadow)) ∧
    ((s.shadow_color = true → (merge_text_styles B O s).shadow_color = O.shadow_color) ∧
     (s.shadow_color = false → (merge_text_styles B O s).shadow_color = B.shadow_color)) ∧
    ((s.shadow_offset = true → (merge_text_styles B O s).shadow_offset = O.shadow_offset) ∧
     (s.shadow_offset = false → (merge_text_styles B O s).shadow_offset = B.shadow_offset)) ∧
    ((s.shadow_blur = true → (merge_text_styles B O s).shadow_blur = O.shadow_blur) ∧
     (s.shadow_blur = false → (merge_text_styles B O s).shadow_blur = B.shadow_blur)) := by
  refine ⟨⟨?_, ?_⟩, ⟨?_, ?_⟩, ⟨?_, ?_⟩, ⟨?_, ?_⟩, ⟨?_, ?_⟩, ⟨?_, ?_⟩, ⟨?_, ?_⟩, ⟨?_, ?_⟩, ⟨?_, ?_⟩, ⟨?_, ?_⟩⟩
  all_goals
    intro h
    simp [merge_text_styles, h]

/-- Claim C1 witness: an override whose only explicitly set field is the
falsy `shadow := false` turns the base's shadow off yet leaves the base's
font family untouched. -/
theorem C1_field_independence_witness :
    (merge_text_styles
        ⟨"Helvetica", "italic", "bold", 72, "#112233", (1, 2), true, "#445566", (3, 4), 7⟩
        { shadow := false } { shadow := true }).shadow = false ∧
    (merge_text_styles
        ⟨"Helvetica", "italic", "bold", 72, "#112233", (1, 2), true, "#445566", (3, 4), 7⟩
        { shadow := false } { shadow := true }).font_family = "Helvetica" :=
  ⟨(C1_field_independence _ _ _).2.2.2.2.2.2.1.1 rfl,
   (C1_field_independence _ _ _).1.2 rfl⟩

/-- Claim C5 counterexample: a six-character string of non-hex characters
does not come back as opaque black — the source's `int(slice, 16)` raises a
ValueError (modelled as `none`), contradicting the claim that every non-hex
input maps to (0,0,0,255) without raising. -/
theorem C5_color_parsing_counterexample :
    parse_color "zzzzzz" = none ∧ parse_color "zzzzzz" ≠ some (0, 0, 0, 255) := by
  refine ⟨by decide, by decide⟩

/-- Claim C5 amended: a string whose length after optional hash stripping is
neither six nor eight parses to opaque black without error; six hex digits
give the three channels with alpha 255; eight hex digits give all four
channels; but a six- or eight-character string containing a non-hex
character raises a ValueError instead of returning black. -/
theorem C5_color_parsing_amended (color : String) :
    ((stripHash color.toList).length ≠ 6 → (stripHash color.toList).length ≠ 8 →
      parse_color color = some (0, 0, 0, 255)) ∧
    (∀ c1 c2 c3 c4 c5 c6 r g b,
      stripHash color.toList = [c1, c2, c3, c4, c5, c6] →
      pyIntHex2Chars c1 c2 = some r → pyIntHex2Chars c3 c4 = some g →
      pyIntHex2Chars c5 c6 = some b →
      parse_color color = some (r, g, b, 255)) ∧
    (∀ c1 c2 c3 c4 c5 c6 c7 c8 r g b a,
      stripHash color.toList = [c1, c2, c3, c4, c5, c6, c7, c8] →
      pyIntHex2Chars c1 c2 = some r → pyIntHex2Chars c3 c4 = some g →
      pyIntHex2Chars c5 c6 = some b → pyIntHex2Chars c7 c8 = some a →
      parse_color color = some (r, g, b, a)) := by
  refine ⟨?_, ?_, ?_⟩
  · intro h6 h8
    unfold parse_color
    rcases hl : stripHash color.toList with
        _ | ⟨a1, _ | ⟨a2, _ | ⟨a3, _ | ⟨a4, _ | ⟨a5, _ | ⟨a6, _ | ⟨a7, _ | ⟨a8, _ | ⟨a9, rest⟩⟩⟩⟩⟩⟩⟩⟩⟩ <;>
      first
        | rfl
        | (rw [hl] at h6 h8; simp at h6 h8)
  · intro c1 c2 c3 c4 c5 c6 r g b hl h1 h2 h3
    have hl' : stripHash color.data = [c1, c2, c3, c4, c5, c6] := hl
    simp [parse_color, hl', h1, h2, h3]
  · intro c1 c2 c3 c4 c5 c6 c7 c8 r g b a hl h1 h2 h3 h4
    have hl' : stripHash color.data = [c1, c2, c3, c4, c5, c6, c7, c8] := hl
    simp [parse_color, hl', h1, h2, h3, h4]

/-- Claim C5 witness: the three example inputs of the claim behave as
amended — a seven-character string gives black, six hex digits give red with
alpha 255, and eight hex digits give green with alpha 64. -/
theorem C5_color_parsing_amended_witness :
    parse_color "invalid" = some (0, 0, 0, 255) ∧
    parse_color "#FF0000" = some (255, 0, 0, 255) ∧
    parse_color "00FF0040" = some (0, 255, 0, 64) :=
  ⟨(C5_color_parsing_amended "invalid").1 (by decide) (by decide),
   (C5_color_parsing_amended "#FF0000").2.1 'F' 'F' '0' '0' '0' '0' 255 0 0
     (by decide) (by decide) (by decide) (by decide),
   (C5_color_parsing_amended "00FF0040").2.2 '0' '0' 'F' 'F' '0' '0' '4' '0' 0 255 0 64
     (by decide) (by decide) (by decide) (by decide) (by decide)⟩

/-- For a non-negative integer, truncating the exact product with p/100
toward zero agrees with floor division of the integer product by 100. -/
theorem pytrunc_percent (t : Int) (p : Int) (ht : 0 ≤ t) (hp : 0 ≤ p) :
    pytrunc ((t : ℚ) * ((p : ℚ) / 100)) = Int.fdiv (t * p) 100 := by
  have hq : (t : ℚ) * ((p : ℚ) / 100) = ((t * p : ℤ) : ℚ) / ((100 : ℕ) : ℚ) := by
    push_cast
    ring
  have hnonneg : 0 ≤ (t : ℚ) * ((p : ℚ) / 100) := by
    apply mul_nonneg
    · exact_mod_cast ht
    · apply div_nonneg
      · exact_mod_cast hp
      · norm_num
  have hfloor : ⌊(t : ℚ) * ((p : ℚ) / 100)⌋ = (t * p) / ((100 : ℕ) : ℤ) := by
    rw [hq]
    exact Rat.floor_intCast_div_natCast _ _
  rw [pytrunc, if_neg (not_lt.2 hnonneg), hfloor,
    Int.fdiv_eq_ediv _ (by norm_num : (0 : Int) ≤ 100)]
  norm_num

/-- Claim C7: vertical text anchoring — a lone main element is centred in
the text-area band with the bounding-box top subtracted, regardless of the
inverted flag; with two elements the main/sub anchors sit at 25%/65% of the
band in standard layout and at 65%/25% in inverted layout, each minus half
its own text height and with no bounding-box subtraction. -/
theorem C7_vertical_anchoring (tah th bt : Int) (htah : 0 ≤ tah) :
    (∀ inv, _calculate_vertical_position tah th bt true false inv
        = Int.fdiv (tah - th) 2 - bt) ∧
    (_calculate_vertical_position tah th bt true true false
        = Int.fdiv (tah * 25) 100 - Int.fdiv th 2) ∧
    (_calculate_vertical_position tah th bt false true false
        = Int.fdiv (tah * 65) 100 - Int.fdiv th 2) ∧
    (_calculate_vertical_position tah th bt true true true
        = Int.fdiv (tah * 65) 100 - Int.fdiv th 2) ∧
    (_calculate_vertical_position tah th bt false true true
        = Int.fdiv (tah * 25) 100 - Int.fdiv th 2) := by
  have h65 : pytrunc ((tah : ℚ) * (65 / 100)) = Int.fdiv (tah * 65) 100 := by
    have h := pytrunc_percent tah 65 htah (by norm_num)
    norm_num at h ⊢
    exact h
  have h25 : pytrunc ((tah : ℚ) * (25 / 100)) = Int.fdiv (tah * 25) 100 := by
    have h := pytrunc_percent tah 25 htah (by norm_num)
    norm_num at h ⊢
    exact h
  refine ⟨?_, ?_, ?_, ?_, ?_⟩
  · intro inv
    cases inv <;> simp [_calculate_vertical_position]
  · simpa [_calculate_vertical_position] using h25
  · simpa [_calculate_vertical_position] using h65
  · simpa [_calculate_vertical_position] using h65
  · simpa [_calculate_vertical_position] using h25

/-- Claim C7 witness: a 400-pixel band, a 100-pixel text and a 10-pixel
bounding-box top give the expected five anchors. -/
theorem C7_vertical_anchoring_witness :
    (0 : Int) ≤ 400 ∧
    ((∀ inv, _calculate_vertical_position 400 100 10 true false inv
        = Int.fdiv (400 - 100) 2 - 10) ∧
     (_calculate_vertical_position 400 100 10 true true false
        = Int.fdiv (400 * 25) 100 - Int.fdiv 100 2) ∧
     (_calculate_vertical_position 400 100 10 false true false
        = Int.fdiv (400 * 65) 100 - Int.fdiv 100 2) ∧
     (_calculate_vertical_position 400 100 10 true true true
        = Int.fdiv (400 * 65) 100 - Int.fdiv 100 2) ∧
     (_calculate_vertical_position 400 100 10 false true true
        = Int.fdiv (400 * 25) 100 - Int.fdiv 100 2)) :=
  ⟨by decide, C7_vertical_anchoring 400 100 10 (by decide)⟩

/-- Claim C6 counterexample: a source width of 0 is a non-negative dimension
on which `calculate_scale_factor` divides by zero and raises (modelled as
`none`) instead of never failing as the claim states, and the same input
makes `calculate_screenshot_dimensions` raise too. -/
theorem C6_geometry_totality_counterexample :
    calculate_scale_factor 0 100 500 500 = none ∧
    calculate_screenshot_dimensions 500 500 0 0 0 0 0 0 100 = none :=
  ⟨rfl, rfl⟩

/-- Claim C6 amended: for positive source dimensions neither geometry
function raises, whatever the canvas, text-area and padding values; and when
one available dimension is zero while the other is non-negative, the scaled
output is zero-by-zero rather than an error. -/
theorem C6_geometry_totality_amended
    (cw ch tah pt pr pb pl ow oh : Int) (how : 0 < ow) (hoh : 0 < oh) :
    (calculate_scale_factor ow oh (cw - pl - pr) (ch - tah - pt - pb)).isSome ∧
    (calculate_screenshot_dimensions cw ch tah pt pr pb pl ow oh).isSome ∧
    (((cw - pl - pr = 0 ∧ 0 ≤ ch - tah - pt - pb) ∨
      (0 ≤ cw - pl - pr ∧ ch - tah - pt - pb = 0)) →
      ∃ x y, calculate_screenshot_dimensions cw ch tah pt pr pb pl ow oh = some (0, 0, x, y)) := by
  have hone : ow ≠ 0 := how.ne'
  have htwo : oh ≠ 0 := hoh.ne'
  have hcsf : calculate_scale_factor ow oh (cw - pl - pr) (ch - tah - pt - pb)
      = some (min (((cw - pl - pr : Int) : ℚ) / ((ow : Int) : ℚ))
          (((ch - tah - pt - pb : Int) : ℚ) / ((oh : Int) : ℚ))) := by
    simp [calculate_scale_factor, hone, htwo]
  refine ⟨by rw [hcsf]; rfl, ?_, ?_⟩
  · simp only [calculate_screenshot_dimensions, hcsf]
    rfl
  · rintro (⟨hz, hnn⟩ | ⟨hnn, hz⟩)
    · have hmin : min (((cw - pl - pr : Int) : ℚ) / ((ow : Int) : ℚ))
          (((ch - tah - pt - pb : Int) : ℚ) / ((oh : Int) : ℚ)) = 0 := by
        rw [hz]
        have h0 : ((0 : Int) : ℚ) / ((ow : Int) : ℚ) = 0 := by norm_num
        rw [h0]
        exact min_eq_left (div_nonneg (by exact_mod_cast hnn) (by exact_mod_cast hoh.le))
      refine ⟨pl + Int.fdiv (cw - pl - pr) 2, tah + pt + Int.fdiv (ch - tah - pt - pb) 2, ?_⟩
      simp only [calculate_screenshot_dimensions, hcsf, hmin]
      norm_num [pytrunc]
    · have hmin : min (((cw - pl - pr : Int) : ℚ) / ((ow : Int) : ℚ))
          (((ch - tah - pt - pb : Int) : ℚ) / ((oh : Int) : ℚ)) = 0 := by
        rw [hz]
        have h0 : ((0 : Int) : ℚ) / ((oh : Int) : ℚ) = 0 := by norm_num
        rw [h0]
        exact min_eq_right (div_nonneg (by exact_mod_cast hnn) (by exact_mod_cast how.le))
      refine ⟨pl + Int.fdiv (cw - pl - pr) 2, tah + pt + Int.fdiv (ch - tah - pt - pb) 2, ?_⟩
      simp only [calculate_screenshot_dimensions, hcsf, hmin]
      norm_num [pytrunc]

/-- Claim C6 witness: a 10-by-10 source never raises on a canvas whose
horizontal padding swallows the full width, and that zero-width available
region yields a zero-by-zero scaled output. -/
theorem C6_geometry_totality_amended_witness :
    (0 : Int) < 10 ∧
    ((calculate_scale_factor 10 10 (100 - 60 - 40) (500 - 100 - 0 - 0)).isSome ∧
     (calculate_screenshot_dimensions 100 500 100 0 40 0 60 10 10).isSome ∧
     (((100 - 60 - 40 = (0 : Int) ∧ (0 : Int) ≤ 500 - 100 - 0 - 0) ∨
       ((0 : Int) ≤ 100 - 60 - 40 ∧ 500 - 100 - 0 - 0 = (0 : Int))) →
       ∃ x y, calculate_screenshot_dimensions 100 500 100 0 40 0 60 10 10 = some (0, 0, x, y))) :=
  ⟨by decide, C6_geometry_totality_amended 100 500 100 0 40 0 60 10 10 (by decide) (by decide)⟩

/-- Claim C4 counterexample: the claim quantifies over every padding, but
with padding exceeding the canvas (negative available region) the scale is
negative and Python's `int()` truncates toward zero, so the returned scaled
width is −1 where the claim's floor formula demands −2. -/
theorem C4_image_placement_counterexample :
    calculate_screenshot_dimensions 10 10 11 0 0 0 11 3 2 = some (-1, -1, 11, 11) ∧
    ⌊(3 : ℚ) * min ((-1 : ℚ) / 3) ((-1 : ℚ) / 2)⌋ = -2 ∧
    (-1 : Int) ≠ -2 := by
  have hsf : calculate_scale_factor 3 2 (10 - 11 - 0) (10 - 11 - 0 - 0) = some (-(1 / 2)) := by
    unfold calculate_scale_factor
    norm_num [min_def]
  have h1 : pytrunc (((3 : Int) : ℚ) * -(1 / 2)) = -1 := by
    unfold pytrunc
    rw [if_pos (by norm_num)]
    rw [show ((3 : Int) : ℚ) * -(1 / 2) = -(3 / 2) by norm_num]
    rw [Int.ceil_eq_iff]
    norm_num
  have h2 : pytrunc (((2 : Int) : ℚ) * -(1 / 2)) = -1 := by
    unfold pytrunc
    rw [if_pos (by norm_num)]
    rw [show ((2 : Int) : ℚ) * -(1 / 2) = ((-1 : Int) : ℚ) by norm_num]
    rw [Int.ceil_intCast]
  refine ⟨?_, ?_, by decide⟩
  · simp only [calculate_screenshot_dimensions, hsf, h1, h2]
    decide
  · rw [show (3 : ℚ) * min ((-1 : ℚ) / 3) ((-1 : ℚ) / 2) = -(3 / 2) by norm_num [min_def]]
    rw [Int.floor_eq_iff]
    norm_num

/-- Claim C4 amended: additionally assuming both available dimensions are
non-negative (padding and text band not exceeding the canvas) — image
placement returns the floor of the source size times the uncapped minimum
axis ratio, positions the box at the padded centred offset, and consequently
the scaled box is non-negative, fits inside the padded available region, is
centred in it up to one pixel on each axis, and preserves the aspect ratio
up to rounding. -/
theorem C4_image_placement (cw ch tah pt pr pb pl ow oh : Int)
    (how : 0 < ow) (hoh : 0 < oh)
    (haw : 0 ≤ cw - pl - pr) (hah : 0 ≤ ch - tah - pt - pb) :
    ∃ sw sh x y,
      calculate_screenshot_dimensions cw ch tah pt pr pb pl ow oh = some (sw, sh, x, y) ∧
      sw = ⌊(ow : ℚ) * min (((cw - pl - pr : Int) : ℚ) / ((ow : Int) : ℚ))
          (((ch - tah - pt - pb : Int) : ℚ) / ((oh : Int) : ℚ))⌋ ∧
      sh = ⌊(oh : ℚ) * min (((cw - pl - pr : Int) : ℚ) / ((ow : Int) : ℚ))
          (((ch - tah - pt - pb : Int) : ℚ) / ((oh : Int) : ℚ))⌋ ∧
      x = pl + Int.fdiv ((cw - pl - pr) - sw) 2 ∧
      y = tah + pt + Int.fdiv ((ch - tah - pt - pb) - sh) 2 ∧
      0 ≤ sw ∧ sw ≤ cw - pl - pr ∧ 0 ≤ sh ∧ sh ≤ ch - tah - pt - pb ∧
      pl ≤ x ∧ x + sw ≤ cw - pr ∧ tah + pt ≤ y ∧ y + sh ≤ ch - pb ∧
      (x - pl) ≤ (cw - pr) - (x + sw) ∧ (cw - pr) - (x + sw) ≤ (x - pl) + 1 ∧
      (y - (tah + pt)) ≤ (ch - pb) - (y + sh) ∧ (ch - pb) - (y + sh) ≤ (y - (tah + pt)) + 1 ∧
      -(ow + oh) < sw * oh - sh * ow ∧ sw * oh - sh * ow < ow + oh := by
  have hone : ow ≠ 0 := how.ne'
  have htwo : oh ≠ 0 := hoh.ne'
  set aw : Int := cw - pl - pr with haw_def
  set ah : Int := ch - tah - pt - pb with hah_def
  set s : ℚ := min (((aw : Int) : ℚ) / ((ow : Int) : ℚ)) (((ah : Int) : ℚ) / ((oh : Int) : ℚ)) with hs_def
  have howq : (0 : ℚ) < ((ow : Int) : ℚ) := by exact_mod_cast how
  have hohq : (0 : ℚ) < ((oh : Int) : ℚ) := by exact_mod_cast hoh
  have hawq : (0 : ℚ) ≤ ((aw : Int) : ℚ) := by exact_mod_cast haw
  have hahq : (0 : ℚ) ≤ ((ah : Int) : ℚ) := by exact_mod_cast hah
  have hs0 : 0 ≤ s := le_min (div_nonneg hawq howq.le) (div_nonneg hahq hohq.le)
  have hcsf : calculate_scale_factor ow oh aw ah = some s := by
    simp [calculate_scale_factor, hone, htwo, hs_def]
  have hswq : (0 : ℚ) ≤ ((ow : Int) : ℚ) * s := mul_nonneg howq.le hs0
  have hshq : (0 : ℚ) ≤ ((oh : Int) : ℚ) * s := mul_nonneg hohq.le hs0
  have hptw : pytrunc (((ow : Int) : ℚ) * s) = ⌊((ow : Int) : ℚ) * s⌋ :=
    if_neg (not_lt.2 hswq)
  have hpth : pytrunc (((oh : Int) : ℚ) * s) = ⌊((oh : Int) : ℚ) * s⌋ :=
    if_neg (not_lt.2 hshq)
  have hows : ((ow : Int) : ℚ) * s ≤ ((aw : Int) : ℚ) := by
    have h1 : s ≤ ((aw : Int) : ℚ) / ((ow : Int) : ℚ) := min_le_left _ _
    calc ((ow : Int) : ℚ) * s
        ≤ ((ow : Int) : ℚ) * (((aw : Int) : ℚ) / ((ow : Int) : ℚ)) :=
          mul_le_mul_of_nonneg_left h1 howq.le
      _ = ((aw : Int) : ℚ) := by field_simp
  have hohs : ((oh : Int) : ℚ) * s ≤ ((ah : Int) : ℚ) := by
    have h1 : s ≤ ((ah : Int) : ℚ) / ((oh : Int) : ℚ) := min_le_right _ _
    calc ((oh : Int) : ℚ) * s
        ≤ ((oh : Int) : ℚ) * (((ah : Int) : ℚ) / ((oh : Int) : ℚ)) :=
          mul_le_mul_of_nonneg_left h1 hohq.le
      _ = ((ah : Int) : ℚ) := by field_simp
  set swv : Int := ⌊((ow : Int) : ℚ) * s⌋ with hswv_def
  set shv : Int := ⌊((oh : Int) : ℚ) * s⌋ with hshv_def
  have hsw0 : 0 ≤ swv := by rw [hswv_def]; exact Int.floor_nonneg.mpr hswq
  have hsh0 : 0 ≤ shv := by rw [hshv_def]; exact Int.floor_nonneg.mpr hshq
  have hswle : swv ≤ aw := by
    rw [hswv_def]
    have h := Int.floor_le_floor hows
    simpa using h
  have hshle : shv ≤ ah := by
    rw [hshv_def]
    have h := Int.floor_le_floor hohs
    simpa using h
  have hfl1 : ((swv : Int) : ℚ) ≤ ((ow : Int) : ℚ) * s := by
    rw [hswv_def]; exact Int.floor_le _
  have hfl2 : ((ow : Int) : ℚ) * s - 1 < ((swv : Int) : ℚ) := by
    rw [hswv_def]; exact Int.sub_one_lt_floor _
  have hfl3 : ((shv : Int) : ℚ) ≤ ((oh : Int) : ℚ) * s := by
    rw [hshv_def]; exact Int.floor_le _
  have hfl4 : ((oh : Int) : ℚ) * s - 1 < ((shv : Int) : ℚ) := by
    rw [hshv_def]; exact Int.sub_one_lt_floor _
  have haspU : swv * oh - shv * ow < ow + oh := by
    have hq1 : ((swv : Int) : ℚ) * ((oh : Int) : ℚ)
        ≤ (((ow : Int) : ℚ) * s) * ((oh : Int) : ℚ) :=
      mul_le_mul_of_nonneg_right hfl1 hohq.le
    have hq2 : (((oh : Int) : ℚ) * s - 1) * ((ow : Int) : ℚ)
        < ((shv : Int) : ℚ) * ((ow : Int) : ℚ) :=
      mul_lt_mul_of_pos_right hfl4 howq
    have hkey : ((swv : Int) : ℚ) * ((oh : Int) : ℚ)
        - ((shv : Int) : ℚ) * ((ow : Int) : ℚ) < ((ow : Int) : ℚ) := by
      nlinarith [hq1, hq2]
    have hcast : ((swv * oh - shv * ow : Int) : ℚ) < ((ow : Int) : ℚ) := by
      push_cast
      linarith
    have hint : swv * oh - shv * ow < ow := by exact_mod_cast hcast
    linarith
  have haspL : -(ow + oh) < swv * oh - shv * ow := by
    have hq1 : (((ow : Int) : ℚ) * s - 1) * ((oh : Int) : ℚ)
        < ((swv : Int) : ℚ) * ((oh : Int) : ℚ) :=
      mul_lt_mul_of_pos_right hfl2 hohq
    have hq2 : ((shv : Int) : ℚ) * ((ow : Int) : ℚ)
        ≤ (((oh : Int) : ℚ) * s) * ((ow : Int) : ℚ) :=
      mul_le_mul_of_nonneg_right hfl3 howq.le
    have hkey : -((oh : Int) : ℚ) < ((swv : Int) : ℚ) * ((oh : Int) : ℚ)
        - ((shv : Int) : ℚ) * ((ow : Int) : ℚ) := by
      nlinarith [hq1, hq2]
    have hcast : -((oh : Int) : ℚ) < ((swv * oh - shv * ow : Int) : ℚ) := by
      push_cast
      linarith
    have hint : -oh < swv * oh - shv * ow := by exact_mod_cast hcast
    linarith
  have hfdw : Int.fdiv (aw - swv) 2 = (aw - swv) / 2 :=
    Int.fdiv_eq_ediv _ (by norm_num)
  have hfdh : Int.fdiv (ah - shv) 2 = (ah - shv) / 2 :=
    Int.fdiv_eq_ediv _ (by norm_num)
  refine ⟨swv, shv, pl + Int.fdiv (aw - swv) 2, tah + pt + Int.fdiv (ah - shv) 2,
    ?_, rfl, rfl, rfl, rfl, hsw0, hswle, hsh0, hshle,
    ?_, ?_, ?_, ?_, ?_, ?_, ?_, ?_, haspL, haspU⟩
  · simp only [calculate_screenshot_dimensions, ← haw_def, ← hah_def, hcsf, hptw, hpth]
  · rw [hfdw]; omega
  · rw [hfdw]; omega
  · rw [hfdh]; omega
  · rw [hfdh]; omega
  · rw [hfdw]; omega
  · rw [hfdw]; omega
  · rw [hfdh]; omega
  · rw [hfdh]; omega

/-- Claim C4 witness: the placement of a 640-by-1136 source on a
1320-by-2868 canvas with a 400-pixel text band and uniform 50-pixel
padding satisfies every clause. -/
theorem C4_image_placement_witness :
    (0 : Int) < 640 ∧ (0 : Int) < 1136 ∧
    (0 : Int) ≤ 1320 - 50 - 50 ∧ (0 : Int) ≤ 2868 - 400 - 50 - 50 ∧
    (∃ sw sh x y,
      calculate_screenshot_dimensions 1320 2868 400 50 50 50 50 640 1136 = some (sw, sh, x, y) ∧
      sw = ⌊(640 : ℚ) * min (((1320 - 50 - 50 : Int) : ℚ) / ((640 : Int) : ℚ))
          (((2868 - 400 - 50 - 50 : Int) : ℚ) / ((1136 : Int) : ℚ))⌋ ∧
      sh = ⌊(1136 : ℚ) * min (((1320 - 50 - 50 : Int) : ℚ) / ((640 : Int) : ℚ))
          (((2868 - 400 - 50 - 50 : Int) : ℚ) / ((1136 : Int) : ℚ))⌋ ∧
      x = 50 + Int.fdiv ((1320 - 50 - 50) - sw) 2 ∧
      y = 400 + 50 + Int.fdiv ((2868 - 400 - 50 - 50) - sh) 2 ∧
      0 ≤ sw ∧ sw ≤ 1320 - 50 - 50 ∧ 0 ≤ sh ∧ sh ≤ 2868 - 400 - 50 - 50 ∧
      50 ≤ x ∧ x + sw ≤ 1320 - 50 ∧ 400 + 50 ≤ y ∧ y + sh ≤ 2868 - 50 ∧
      (x - 50) ≤ (1320 - 50) - (x + sw) ∧ (1320 - 50) - (x + sw) ≤ (x - 50) + 1 ∧
      (y - (400 + 50)) ≤ (2868 - 50) - (y + sh) ∧
      (2868 - 50) - (y + sh) ≤ (y - (400 + 50)) + 1 ∧
      -(640 + 1136) < sw * 1136 - sh * 640 ∧ sw * 1136 - sh * 640 < 640 + 1136) :=
  ⟨by decide, by decide, by decide, by decide,
   C4_image_placement 1320 2868 400 50 50 50 50 640 1136
     (by decide) (by decide) (by decide) (by decide)⟩

/-- The spec chain resolves nothing from an absent fragment field. -/
theorem specLangLookup_none {α : Type} (lang : String) (defLang : Option String) :
    specLangLookup (α := α) none lang defLang = none := rfl

/-- Left-biased choice with an absent first component. -/
theorem optOr_none_left {α : Type} (b : Option α) : optOr none b = b := rfl

/-- Left-biased choice with an absent second component. -/
theorem optOr_none_right {α : Type} (a : Option α) : optOr a none = a := by
  cases a <;> rfl

/-- Choosing the set side of an optional pair before applying the default is
the same as defaulting the left-biased choice. -/
theorem optOr_getD {α : Type} (a b : Option α) (dflt : α) :
    (if a.isSome then a.getD dflt else b.getD dflt) = (optOr a b).getD dflt := by
  cases a <;> rfl

/-- Guarding a default on presence collapses to `getD`. -/
theorem isSome_getD {α : Type} (a : Option α) (d : α) :
    (if a.isSome then a.getD d else d) = a.getD d := by
  cases a <;> rfl

/-- Under non-empty language parameters the source's truthiness-guarded
per-language resolution agrees with the spec's fallback chain. -/
theorem resolveField_eq_spec {α : Type} (v : Option (StyleValue α)) (lang : String)
    (defLang : Option String) (hl : lang ≠ "") (hd : defLang ≠ some "") :
    resolveField v (some lang) defLang = specLangLookup v lang defLang := by
  cases v with
  | none => rfl
  | some sv =>
    cases sv with
    | direct a => rfl
    | perLanguage m =>
      have hst : strTruthy (some lang) = true := by
        simp [strTruthy]
        exact hl
      simp only [resolveField, specLangLookup, hst, if_true, Option.getD_some]
      rcases hlk : dlookup m lang with _ | a
      · cases defLang with
        | none => rfl
        | some dl =>
          have hdl : dl ≠ "" := by
            intro h
            exact hd (by rw [h])
          have hst2 : strTruthy (some dl) = true := by
            simp [strTruthy]
            exact hdl
          simp only [hst2, if_true, Option.getD_some]
          cases dlookup m dl <;> rfl
      · rfl

/-- Claim C3 counterexample: the claim's fallback chain promises the
exact-language entry whenever the per-language map holds one, but for the
empty-string language the source's truthiness guard skips the lookup and the
built-in default is used instead. -/
theorem C3_fallback_chain_counterexample :
    dlookup [("", "X")] "" = some "X" ∧
    (get_style_for_language { font_family := some (.perLanguage [("", "X")]) }
        (some "") none).1.font_family = "Arial" ∧
    ("Arial" : String) ≠ "X" :=
  ⟨rfl, rfl, by decide⟩

/-- Claim C3 amended: for a non-empty target language and a default language
that is not the empty string, every field of the fully resolved text style
is the screenshot-level resolved scalar if present, else the theme-level
resolved scalar if present, else the built-in default — where per-field
resolution takes a direct value outright and consults a per-language map
first at the exact language, then at the default language. -/
theorem C3_fallback_chain_amended (themeLS scrLS : Option LocalizedTextStyle)
    (lang : String) (defLang : Option String) (hl : lang ≠ "") (hd : defLang ≠ some "") :
    (_get_text_style themeLS scrLS lang defLang).font_family
      = (optOr (specLangLookup (scrLS.bind LocalizedTextStyle.font_family) lang defLang)
          (specLangLookup (themeLS.bind LocalizedTextStyle.font_family) lang defLang)).getD "Arial" ∧
    (_get_text_style themeLS scrLS lang defLang).font_style
      = (optOr (specLangLookup (scrLS.bind LocalizedTextStyle.font_style) lang defLang)
          (specLangLookup (themeLS.bind LocalizedTextStyle.font_style) lang defLang)).getD "normal" ∧
    (_get_text_style themeLS scrLS lang defLang).font_weight
      = (optOr (specLangLookup (scrLS.bind LocalizedTextStyle.font_weight) lang defLang)
          (specLangLookup (themeLS.bind LocalizedTextStyle.font_weight) lang defLang)).getD "normal" ∧
    (_get_text_style themeLS scrLS lang defLang).font_size
      = (optOr (specLangLookup (scrLS.bind LocalizedTextStyle.font_size) lang defLang)
          (specLangLookup (themeLS.bind LocalizedTextStyle.font_size) lang defLang)).getD 96 ∧
    (_get_text_style themeLS scrLS lang defLang).color
      = (optOr (specLangLookup (scrLS.bind LocalizedTextStyle.color) lang defLang)
          (specLangLookup (themeLS.bind LocalizedTextStyle.color) lang defLang)).getD "#FFFFFF" ∧
    (_get_text_style themeLS scrLS lang defLang).offset
      = (optOr (specLangLookup (scrLS.bind LocalizedTextStyle.offset) lang defLang)
          (specLangLookup (themeLS.bind LocalizedTextStyle.offset) lang defLang)).getD (0, 0) ∧
    (_get_text_style themeLS scrLS lang defLang).shadow
      = (optOr (specLangLookup (scrLS.bind LocalizedTextStyle.shadow) lang defLang)
          (specLangLookup (themeLS.bind LocalizedTextStyle.shadow) lang defLang)).getD false ∧
    (_get_text_style themeLS scrLS lang defLang).shadow_color
      = (optOr (specLangLookup (scrLS.bind LocalizedTextStyle.shadow_color) lang defLang)
          (specLangLookup (themeLS.bind LocalizedTextStyle.shadow_color) lang defLang)).getD "#000000" ∧
    (_get_text_style themeLS scrLS lang defLang).shadow_offset
      = (optOr (specLangLookup (scrLS.bind LocalizedTextStyle.shadow_offset) lang defLang)
          (specLangLookup (themeLS.bind LocalizedTextStyle.shadow_offset) lang defLang)).getD (2, 2) ∧
    (_get_text_style themeLS scrLS lang defLang).shadow_blur
      = (optOr (specLangLookup (scrLS.bind LocalizedTextStyle.shadow_blur) lang defLang)
          (specLangLookup (themeLS.bind LocalizedTextStyle.shadow_blur) lang defLang)).getD 4 := by
  have hres : ∀ {α : Type} (v : Option (StyleValue α)),
      resolveField v (some lang) defLang = specLangLookup v lang defLang :=
    fun v => resolveField_eq_spec v lang defLang hl hd
  cases themeLS <;> cases scrLS <;>
    refine ⟨?_, ?_, ?_, ?_, ?_, ?_, ?_, ?_, ?_, ?_⟩ <;>
    simp [_get_text_style, get_style_for_language, merge_text_styles,
      Option.none_bind, Option.some_bind, specLangLookup_none,
      optOr_none_left, optOr_none_right, hres, optOr_getD, isSome_getD]

/-- Claim C3 witness: a theme with an English per-language font family and no
screenshot override resolves the font family for "en" along the amended
chain. -/
theorem C3_fallback_chain_amended_witness :
    ("en" : String) ≠ "" ∧ (none : Option String) ≠ some "" ∧
    (_get_text_style
        (some { font_family := some (.perLanguage [("en", "Helvetica")]) }) none "en" none).font_family
      = (optOr
          (specLangLookup ((none : Option LocalizedTextStyle).bind LocalizedTextStyle.font_family) "en" none)
          (specLangLookup
            ((some ({ font_family := some (.perLanguage [("en", "Helvetica")]) } : LocalizedTextStyle)).bind
              LocalizedTextStyle.font_family) "en" none)).getD "Arial" :=
  ⟨by decide, by decide,
   (C3_fallback_chain_amended
      (some { font_family := some (.perLanguage [("en", "Helvetica")]) }) none "en" none
      (by decide) (by decide)).1⟩

end AutoAppScreenshots
